import Mathlib

/-!
Shallow embedding of `src/scripts/init_db.py` (MongoDB bootstrap script).

The script waits for a MongoDB server to accept connections
(`wait_for_db`), then idempotently provisions three administrative
objects (`check_and_initialise_db`):
  * a `roles` collection in the application database,
  * a root "sysadmin" application user in the `users` collection,
  * a database-level `APP_ADMIN_USER` in the `admin` database.

The database is modelled as an explicit state (`DbState`).  Sources of
nondeterminism of a real run — the generated `ObjectId`, the wall-clock
timestamps, the bcrypt salt, and which database commands raise
`OperationFailure` — are passed in as oracle parameters, so every
definition is executable.
-/

/-- Modelled from the spec: the `bcrypt` library used by `hash_password`
and `verify_password` is a third-party dependency, not part of this
repository.  Per the spec it is a salted one-way hash whose stored output
is "never stored in plaintext".  We model bcrypt's documented output
format: a 60-character string consisting of a 29-character salt header
followed by a 31-character digest; verification re-derives the salt from
the first 29 characters of the stored hash.  `flipChar` feeds the model
digest a character that provably differs from the corresponding character
of the password, reflecting that a bcrypt digest is never the identity on
its input. -/
def flipChar (c : Char) : Char := if c = 'a' then 'b' else 'a'

/-- Rolling checksum over a string, used to let the model digest depend on
both salt and password. -/
def strSum (s : String) : Nat := s.data.foldl (fun a c => a * 131 + c.toNat) 7

/-- A printable character derived from a number (model of bcrypt's base64
alphabet). -/
def mixChar (n : Nat) : Char := Char.ofNat (48 + n % 64)

/-- Modelled from the spec: the 31-character digest part of a bcrypt hash.
Deterministic in (salt, password), as `bcrypt.hashpw` is. -/
def bcryptDigest (salt p : String) : String :=
  String.mk (flipChar (p.data.getD 29 ' ') ::
    (List.range 30).map (fun i => mixChar (strSum salt + strSum p * (i + 1))))

/-- Modelled from the spec: `bcrypt.gensalt()`.  The randomness of the
salt is supplied by the oracle parameter `r`; the result is the
29-character salt header `$2b$12$` ++ 22 salt characters. -/
def bcryptGensalt (r : Nat) : String :=
  "$2b$12$" ++ String.mk ((List.range 22).map (fun i => mixChar (r / 64 ^ i)))

/-- Modelled from the spec: `bcrypt.hashpw(password, salt)`: the salt
header followed by the digest. -/
def bcryptHashpw (password salt : String) : String :=
  salt ++ bcryptDigest salt password

/-- Modelled from the spec: `bcrypt.checkpw`: extract the 29-character
salt from the stored hash, re-hash the candidate password with it and
compare. -/
def bcryptCheckpw (password hashed : String) : Bool :=
  bcryptHashpw password (String.mk (hashed.data.take 29)) == hashed

/-- `hash_password` (src/scripts/init_db.py:14-16): generate a salt and
hash the password with it.  `r` is the oracle input standing for the
randomness consumed by `bcrypt.gensalt()`. -/
def hash_password (r : Nat) (password : String) : String :=
  bcryptHashpw password (bcryptGensalt r)

/-- `verify_password` (src/scripts/init_db.py:20-23). -/
def verify_password (plain hashed : String) : Bool :=
  bcryptCheckpw plain hashed

/-- A document of the `users` collection, following the `User` pydantic
model (src/scripts/init_db.py:44-75): `_id`, email, hashed password,
active flag, verified flag, role names, timestamps, optional tenant id.
`ObjectId`s and timestamps are modelled as naturals. -/
structure UserDoc where
  id : Nat
  email : String
  hashed_password : String
  is_active : Bool
  is_verified : Bool
  roles : List String
  created_at : Nat
  updated_at : Nat
  tenant_id : Option String
deriving Repr, DecidableEq

/-- A database-level user of the `admin` database, as created by the
`createUser` command (src/scripts/init_db.py:153-160): name, password and
(role, db) pairs. -/
structure AdminDbUser where
  name : String
  pwd : String
  roles : List (String × String)
deriving Repr, DecidableEq

/-- The database state the script observes and updates: the collection
names of the application database, the documents of its `users`
collection, and the database-level users of the `admin` database. -/
structure DbState where
  collections : List String
  users : List UserDoc
  adminDbUsers : List AdminDbUser
deriving Repr, DecidableEq

/-- The environment-variable configuration the script reads
(src/scripts/init_db.py:79-87), restricted to the values
`check_and_initialise_db` uses. -/
structure Config where
  DB_NAME : String
  APP_ADMIN_USER : String
  APP_ADMIN_PASS : String
  ADMIN_USER : String
  ADMIN_PASS : String

/-- The database operations `check_and_initialise_db` performs, in
program order.  Each may raise `OperationFailure` on a real server. -/
inductive DbOp where
  | listCollections
  | createCollection
  | findOne
  | insertOne
  | usersInfo
  | createUser
deriving Repr, DecidableEq

/-- The only database-raised error class the script distinguishes
(`pymongo.errors.OperationFailure`, covering authorization and command
failures). -/
inductive DbError where
  | operationFailure (msg : String)
deriving Repr, DecidableEq

/-- How a call of `check_and_initialise_db` ends: `exit code` via
`sys.exit`, or an uncaught exception. -/
inductive RunOutcome where
  | exited (code : Nat)
  | raised (e : DbError)
deriving Repr, DecidableEq

/-- Result of a call of `check_and_initialise_db`: the database state
when control leaves the function, how it left, and whether the
`MongoClient` opened by the function was closed. -/
structure RunResult where
  state : DbState
  outcome : RunOutcome
  clientClosed : Bool
deriving Repr, DecidableEq

/-- Failure oracle under which no database command raises. -/
def noFail : DbOp → Bool := fun _ => false

/-- `find_one({"email": ADMIN_USER})` on the `users` collection
(src/scripts/init_db.py:122-124). -/
def findAdmin (cfg : Config) (s : DbState) : Option UserDoc :=
  s.users.find? (fun d => d.email == cfg.ADMIN_USER)

/-- The document inserted for the sysadmin user
(src/scripts/init_db.py:129-141): the `User` model instantiated with
`is_active=True`, `is_verified=True`, `roles=["sysadmin"]`, the pydantic
defaults for the timestamps and `tenant_id`, and a fresh `_id`. -/
def newAdminDoc (cfg : Config) (freshId now saltR : Nat) : UserDoc :=
  { id := freshId
    email := cfg.ADMIN_USER
    hashed_password := hash_password saltR cfg.ADMIN_PASS
    is_active := true
    is_verified := true
    roles := ["sysadmin"]
    created_at := now
    updated_at := now
    tenant_id := none }

/-- Lines 113-118: `list_collection_names`, then `create_collection("roles")`
only when `"roles"` is absent. -/
def rolesPhase (fail : DbOp → Bool) (s : DbState) : Except DbError DbState :=
  if fail .listCollections then .error (.operationFailure "list_collection_names")
  else if "roles" ∈ s.collections then .ok s
  else if fail .createCollection then .error (.operationFailure "create_collection")
  else .ok { s with collections := s.collections ++ ["roles"] }

/-- Lines 120-144: `find_one` by email on `users`, then `insert_one` of the
new sysadmin document only when no document matched.  Inserting into an
absent collection implicitly creates it, as in MongoDB. -/
def usersPhase (cfg : Config) (fail : DbOp → Bool) (freshId now saltR : Nat)
    (s : DbState) : Except DbError DbState :=
  if fail .findOne then .error (.operationFailure "find_one")
  else
    match findAdmin cfg s with
    | some _ => .ok s
    | none =>
      if fail .insertOne then .error (.operationFailure "insert_one")
      else .ok { s with
                 users := s.users ++ [newAdminDoc cfg freshId now saltR]
                 collections :=
                   if "users" ∈ s.collections then s.collections
                   else s.collections ++ ["users"] }

/-- Lines 146-166: `command("usersInfo", APP_ADMIN_USER)` on the `admin`
database, then `command("createUser", ...)` only when the returned user
list is empty. -/
def appAdminPhase (cfg : Config) (fail : DbOp → Bool) (s : DbState) :
    Except DbError DbState :=
  if fail .usersInfo then .error (.operationFailure "usersInfo")
  else if s.adminDbUsers.any (fun u => u.name == cfg.APP_ADMIN_USER) then .ok s
  else if fail .createUser then .error (.operationFailure "createUser")
  else .ok { s with
             adminDbUsers := s.adminDbUsers ++
               [{ name := cfg.APP_ADMIN_USER
                  pwd := cfg.APP_ADMIN_PASS
                  roles := [("readWrite", cfg.DB_NAME)] }] }

/-- `check_and_initialise_db` (src/scripts/init_db.py:109-170).  The three
phases run in sequence; an `OperationFailure` raised by any database
command is not caught anywhere in the function, so it aborts the remaining
statements (including `client.close()`) and propagates to the caller.  On
the success path the function closes its client and calls `sys.exit(0)`.
`freshId`, `now` and `saltR` are the oracle inputs for `ObjectId()`,
`datetime.now` and the bcrypt salt. -/
def checkAndInitialiseDb (cfg : Config) (fail : DbOp → Bool)
    (freshId now saltR : Nat) (s : DbState) : RunResult :=
  match rolesPhase fail s with
  | .error e => { state := s, outcome := .raised e, clientClosed := false }
  | .ok s1 =>
    match usersPhase cfg fail freshId now saltR s1 with
    | .error e => { state := s1, outcome := .raised e, clientClosed := false }
    | .ok s2 =>
      match appAdminPhase cfg fail s2 with
      | .error e => { state := s2, outcome := .raised e, clientClosed := false }
      | .ok s3 => { state := s3, outcome := .exited 0, clientClosed := true }

/-- `wait_for_db` (src/scripts/init_db.py:94-105), fuel-bounded.
`probe i` is whether the `i`-th `client.server_info()` call succeeds
(`false` = `ServerSelectionTimeoutError`).  The result is `none` when the
loop has not exited within `fuel` probes, and `some sleeps` — the list of
`time.sleep` durations performed, one fixed 5 for every failed probe —
once a probe succeeds. -/
def waitForDbAux (probe : Nat → Bool) : Nat → Nat → Option (List Nat)
  | 0, _ => none
  | fuel + 1, i =>
    if probe i then some []
    else (waitForDbAux probe fuel (i + 1)).map (fun l => 5 :: l)

/-- `wait_for_db` starting at the first probe. -/
def waitForDb (probe : Nat → Bool) (fuel : Nat) : Option (List Nat) :=
  waitForDbAux probe fuel 0

/-- Result of a whole script run (src/scripts/init_db.py:174-179):
whether the `MongoClient` opened by `wait_for_db` was ever closed, and the
result of `check_and_initialise_db`. -/
structure ScriptResult where
  waitClientClosed : Bool
  run : RunResult
deriving Repr, DecidableEq

/-- The `__main__` block: `wait_for_db()` then `check_and_initialise_db()`.
`wait_for_db` contains no `close()` call, so its client is still open when
control passes on; `none` means the availability loop never exited within
`fuel`. -/
def scriptMain (cfg : Config) (fail : DbOp → Bool) (probe : Nat → Bool)
    (fuel freshId now saltR : Nat) (s : DbState) : Option ScriptResult :=
  match waitForDb probe fuel with
  | none => none
  | some _ =>
    some { waitClientClosed := false
           run := checkAndInitialiseDb cfg fail freshId now saltR s }

/-- Pure effect of the `roles`-collection phase (lines 113-118) when no
command fails. -/
def rolesAfter (s : DbState) : DbState :=
  if "roles" ∈ s.collections then s
  else { s with collections := s.collections ++ ["roles"] }

/-- Pure effect of the sysadmin-user phase (lines 120-144) when no
command fails. -/
def usersAfter (cfg : Config) (freshId now saltR : Nat) (s : DbState) : DbState :=
  match findAdmin cfg s with
  | some _ => s
  | none =>
    { s with
      users := s.users ++ [newAdminDoc cfg freshId now saltR]
      collections := if "users" ∈ s.collections then s.collections
                     else s.collections ++ ["users"] }

/-- Pure effect of the `APP_ADMIN_USER` phase (lines 146-166) when no
command fails. -/
def appAdminAfter (cfg : Config) (s : DbState) : DbState :=
  if s.adminDbUsers.any (fun u => u.name == cfg.APP_ADMIN_USER) then s
  else { s with
         adminDbUsers := s.adminDbUsers ++
           [{ name := cfg.APP_ADMIN_USER
              pwd := cfg.APP_ADMIN_PASS
              roles := [("readWrite", cfg.DB_NAME)] }] }

/-- The database state after a failure-free `check_and_initialise_db`. -/
def initialisedState (cfg : Config) (freshId now saltR : Nat) (s : DbState) :
    DbState :=
  appAdminAfter cfg (usersAfter cfg freshId now saltR (rolesAfter s))

/-- Concrete configuration used to instantiate hypotheses of the theorems
below on executable inputs. -/
def cfg0 : Config :=
  { DB_NAME := "projix_db"
    APP_ADMIN_USER := "appadmin"
    APP_ADMIN_PASS := "apppass"
    ADMIN_USER := "admin@example.com"
    ADMIN_PASS := "secret" }

/-- A concrete sysadmin document matching `cfg0`. -/
def adminDoc0 : UserDoc :=
  { id := 10
    email := "admin@example.com"
    hashed_password := "h0"
    is_active := true
    is_verified := true
    roles := ["sysadmin"]
    created_at := 0
    updated_at := 0
    tenant_id := none }

/-- A concrete document with the admin login but without the sysadmin
role. -/
def badAdminDoc0 : UserDoc :=
  { id := 11
    email := "admin@example.com"
    hashed_password := "h1"
    is_active := true
    is_verified := false
    roles := ["user"]
    created_at := 0
    updated_at := 0
    tenant_id := none }

/-- A concrete database-level user matching `cfg0`. -/
def appAdmin0 : AdminDbUser :=
  { name := "appadmin", pwd := "apppass", roles := [("readWrite", "projix_db")] }

/-- An empty database. -/
def empty0 : DbState := { collections := [], users := [], adminDbUsers := [] }

/-- A fully provisioned database for `cfg0`. -/
def provisioned0 : DbState :=
  { collections := ["roles", "users"]
    users := [adminDoc0]
    adminDbUsers := [appAdmin0] }

/-- A database whose admin-login document lacks the sysadmin role. -/
def badState0 : DbState :=
  { collections := ["roles", "users"]
    users := [badAdminDoc0]
    adminDbUsers := [appAdmin0] }

/-- Failure oracle under which exactly the `usersInfo` command raises
`OperationFailure`. -/
def failUsersInfo : DbOp → Bool := fun op => op == .usersInfo

/-- A probe for which the very first `server_info()` call succeeds. -/
def probeNow : Nat → Bool := fun _ => true

/-- The script result of a completed run on `provisioned0`. -/
def scriptRes0 : ScriptResult :=
  { waitClientClosed := false
    run := { state := provisioned0, outcome := .exited 0, clientClosed := true } }

/-- Failure oracle under which exactly `list_collection_names` raises. -/
def failLC : DbOp → Bool := fun op => op == .listCollections

/-- Failure oracle under which exactly `create_collection` raises. -/
def failCC : DbOp → Bool := fun op => op == .createCollection

/-- Failure oracle under which exactly `find_one` raises. -/
def failFO : DbOp → Bool := fun op => op == .findOne

/-- Failure oracle under which exactly `insert_one` raises. -/
def failIO : DbOp → Bool := fun op => op == .insertOne

/-- Failure oracle under which exactly `createUser` raises. -/
def failCU : DbOp → Bool := fun op => op == .createUser

/-- A database with the `roles` collection but no admin document. -/
def noAdminState0 : DbState :=
  { collections := ["roles"], users := [], adminDbUsers := [] }

/-- A database with the admin document but no database-level user. -/
def noAppAdminState0 : DbState :=
  { collections := ["roles", "users"], users := [adminDoc0], adminDbUsers := [] }

/-! ### Helper lemmas about the bcrypt model -/

theorem string_data_append (s t : String) : (s ++ t).data = s.data ++ t.data := rfl

theorem string_mk_data (s : String) : String.mk s.data = s := rfl

theorem bcryptGensalt_data_length (r : Nat) : (bcryptGensalt r).data.length = 29 := by
  have h7 : ("$2b$12$" : String).data.length = 7 := rfl
  simp [bcryptGensalt, string_data_append, h7]

theorem flipChar_ne (c : Char) : flipChar c ≠ c := by
  unfold flipChar
  split
  · next h => subst h; decide
  · next h => exact fun hc => h hc.symm

theorem bcryptDigest_data (salt p : String) :
    (bcryptDigest salt p).data =
      flipChar (p.data.getD 29 ' ') ::
        (List.range 30).map (fun i => mixChar (strSum salt + strSum p * (i + 1))) := rfl

theorem bcryptHashpw_ne_of_len (p salt : String) (h : salt.data.length = 29) :
    bcryptHashpw p salt ≠ p := by
  intro he
  have hd : salt.data ++ (bcryptDigest salt p).data = p.data := by
    have hc := congrArg String.data he
    simpa [bcryptHashpw, string_data_append] using hc
  have h29 : p.data.getD 29 ' ' = flipChar (p.data.getD 29 ' ') := by
    conv_lhs => rw [← hd]
    rw [List.getD_append_right _ _ _ _ (le_of_eq h), h]
    simp [bcryptDigest_data]
  exact flipChar_ne _ h29.symm

theorem hash_password_ne_plain (r : Nat) (p : String) : hash_password r p ≠ p :=
  bcryptHashpw_ne_of_len p (bcryptGensalt r) (bcryptGensalt_data_length r)

theorem bcryptCheckpw_hashpw (p salt : String) (h : salt.data.length = 29) :
    bcryptCheckpw p (bcryptHashpw p salt) = true := by
  unfold bcryptCheckpw
  have ht : (bcryptHashpw p salt).data.take 29 = salt.data := by
    rw [bcryptHashpw, string_data_append, List.take_left' h]
  rw [ht, string_mk_data]
  simp

theorem hash_password_salt_ne (p : String) : hash_password 0 p ≠ hash_password 1 p := by
  intro h
  have hd : (bcryptGensalt 0).data ++ (bcryptDigest (bcryptGensalt 0) p).data =
      (bcryptGensalt 1).data ++ (bcryptDigest (bcryptGensalt 1) p).data := by
    have hc := congrArg String.data h
    simpa [hash_password, bcryptHashpw, string_data_append] using hc
  have hsalt : (bcryptGensalt 0).data = (bcryptGensalt 1).data := by
    have ht := congrArg (List.take 29) hd
    rwa [List.take_left' (bcryptGensalt_data_length 0),
         List.take_left' (bcryptGensalt_data_length 1)] at ht
  have hs : bcryptGensalt 0 = bcryptGensalt 1 := by
    have h0 := string_mk_data (bcryptGensalt 0)
    have h1 := string_mk_data (bcryptGensalt 1)
    rw [← h0, ← h1, hsalt]
  exact absurd hs (by decide)

/-- C9: password hashing round-trips with verification: for every salt
oracle `r` and password `p`, `verify_password p (hash_password r p)` is
`true`, even though hashing is salted, so the hash strings produced with
two different salts differ. -/
theorem verify_password_roundtrip (r : Nat) (p : String) :
    verify_password p (hash_password r p) = true ∧
      hash_password 0 p ≠ hash_password 1 p :=
  ⟨bcryptCheckpw_hashpw p (bcryptGensalt r) (bcryptGensalt_data_length r),
   hash_password_salt_ne p⟩

/-! ### The failure-free run -/

theorem rolesPhase_noFail (s : DbState) : rolesPhase noFail s = .ok (rolesAfter s) := by
  simp only [rolesPhase, rolesAfter, noFail, Bool.false_eq_true, if_false]
  split <;> rfl

theorem usersPhase_noFail (cfg : Config) (i n r : Nat) (s : DbState) :
    usersPhase cfg noFail i n r s = .ok (usersAfter cfg i n r s) := by
  simp only [usersPhase, usersAfter, noFail, Bool.false_eq_true, if_false]
  cases findAdmin cfg s <;> rfl

theorem appAdminPhase_noFail (cfg : Config) (s : DbState) :
    appAdminPhase cfg noFail s = .ok (appAdminAfter cfg s) := by
  simp only [appAdminPhase, appAdminAfter, noFail, Bool.false_eq_true, if_false]
  split <;> rfl

theorem run_noFail (cfg : Config) (i n r : Nat) (s : DbState) :
    checkAndInitialiseDb cfg noFail i n r s =
      { state := initialisedState cfg i n r s
        outcome := .exited 0
        clientClosed := true } := by
  simp only [checkAndInitialiseDb, initialisedState, rolesPhase_noFail,
    usersPhase_noFail, appAdminPhase_noFail]

theorem rolesAfter_users (s : DbState) : (rolesAfter s).users = s.users := by
  unfold rolesAfter; split <;> rfl

theorem rolesAfter_adminDbUsers (s : DbState) :
    (rolesAfter s).adminDbUsers = s.adminDbUsers := by
  unfold rolesAfter; split <;> rfl

theorem rolesAfter_roles_mem (s : DbState) : "roles" ∈ (rolesAfter s).collections := by
  unfold rolesAfter; split
  · assumption
  · simp

theorem rolesAfter_of_mem (s : DbState) (h : "roles" ∈ s.collections) :
    rolesAfter s = s := by
  unfold rolesAfter; simp [h]

theorem findAdmin_users_eq (cfg : Config) {s s' : DbState} (h : s.users = s'.users) :
    findAdmin cfg s = findAdmin cfg s' := by
  unfold findAdmin; rw [h]

theorem usersAfter_adminDbUsers (cfg : Config) (i n r : Nat) (s : DbState) :
    (usersAfter cfg i n r s).adminDbUsers = s.adminDbUsers := by
  unfold usersAfter; cases findAdmin cfg s <;> rfl

theorem usersAfter_collections_mono (cfg : Config) (i n r : Nat) (s : DbState)
    (x : String) (h : x ∈ s.collections) :
    x ∈ (usersAfter cfg i n r s).collections := by
  unfold usersAfter
  cases findAdmin cfg s with
  | none => simp only; split <;> simp [h]
  | some d => exact h

theorem usersAfter_of_found (cfg : Config) (i n r : Nat) (s : DbState)
    (h : (findAdmin cfg s).isSome) : usersAfter cfg i n r s = s := by
  unfold usersAfter
  cases hf : findAdmin cfg s with
  | none => rw [hf] at h; simp at h
  | some d => rfl

theorem usersAfter_users_of_none (cfg : Config) (i n r : Nat) (s : DbState)
    (h : findAdmin cfg s = none) :
    (usersAfter cfg i n r s).users = s.users ++ [newAdminDoc cfg i n r] := by
  unfold usersAfter; rw [h]

theorem findAdmin_usersAfter_isSome (cfg : Config) (i n r : Nat) (s : DbState) :
    (findAdmin cfg (usersAfter cfg i n r s)).isSome := by
  unfold usersAfter
  cases hf : findAdmin cfg s with
  | none =>
    unfold findAdmin at hf
    simp [findAdmin, List.find?_append, hf, newAdminDoc]
  | some d => simp [hf]

theorem appAdminAfter_users (cfg : Config) (s : DbState) :
    (appAdminAfter cfg s).users = s.users := by
  unfold appAdminAfter; split <;> rfl

theorem appAdminAfter_collections (cfg : Config) (s : DbState) :
    (appAdminAfter cfg s).collections = s.collections := by
  unfold appAdminAfter; split <;> rfl

theorem appAdminAfter_any (cfg : Config) (s : DbState) :
    ((appAdminAfter cfg s).adminDbUsers.any
      (fun u => u.name == cfg.APP_ADMIN_USER)) = true := by
  unfold appAdminAfter; split
  · assumption
  · simp

theorem appAdminAfter_of_any (cfg : Config) (s : DbState)
    (h : s.adminDbUsers.any (fun u => u.name == cfg.APP_ADMIN_USER) = true) :
    appAdminAfter cfg s = s := by
  simp [appAdminAfter, h]

theorem initialisedState_fixpoint (cfg : Config) (i1 n1 r1 i2 n2 r2 : Nat)
    (s : DbState) :
    initialisedState cfg i2 n2 r2 (initialisedState cfg i1 n1 r1 s) =
      initialisedState cfg i1 n1 r1 s := by
  have hroles : "roles" ∈ (initialisedState cfg i1 n1 r1 s).collections := by
    unfold initialisedState
    rw [appAdminAfter_collections]
    exact usersAfter_collections_mono _ _ _ _ _ _ (rolesAfter_roles_mem s)
  have hfind : (findAdmin cfg (initialisedState cfg i1 n1 r1 s)).isSome := by
    unfold initialisedState
    rw [findAdmin_users_eq cfg (appAdminAfter_users cfg _)]
    exact findAdmin_usersAfter_isSome _ _ _ _ _
  have hany : ((initialisedState cfg i1 n1 r1 s).adminDbUsers.any
      (fun u => u.name == cfg.APP_ADMIN_USER)) = true := by
    unfold initialisedState
    exact appAdminAfter_any _ _
  rw [show initialisedState cfg i2 n2 r2 (initialisedState cfg i1 n1 r1 s) =
        appAdminAfter cfg (usersAfter cfg i2 n2 r2
          (rolesAfter (initialisedState cfg i1 n1 r1 s))) from rfl]
  rw [rolesAfter_of_mem _ hroles, usersAfter_of_found _ _ _ _ _ hfind,
    appAdminAfter_of_any _ _ hany]

/-- C1: a second run of `check_and_initialise_db` on the database state a
completed run produced leaves the state unchanged: no new document in
`users`, no new collection, no new database-level user. -/
theorem check_and_initialise_db_idempotent (cfg : Config) (i1 n1 r1 i2 n2 r2 : Nat)
    (s s1 : DbState)
    (h : checkAndInitialiseDb cfg noFail i1 n1 r1 s =
      { state := s1, outcome := .exited 0, clientClosed := true }) :
    checkAndInitialiseDb cfg noFail i2 n2 r2 s1 =
      { state := s1, outcome := .exited 0, clientClosed := true } := by
  rw [run_noFail] at h
  have hs1 : s1 = initialisedState cfg i1 n1 r1 s :=
    (congrArg RunResult.state h).symm
  rw [run_noFail, hs1, initialisedState_fixpoint]

/-- Witness for C1 at concrete inputs. -/
theorem check_and_initialise_db_idempotent_witness :
    checkAndInitialiseDb cfg0 noFail 4 5 6 provisioned0 =
      { state := provisioned0, outcome := .exited 0, clientClosed := true } :=
  check_and_initialise_db_idempotent cfg0 1 2 3 4 5 6 provisioned0 provisioned0
    (by decide)

/-! ### C2: the admin query after a run -/

/-- C2 fails as stated ("for every initial database state"): from this
concrete initial state, whose only `users` document carries the admin
login but only the role `"user"`, the run completes successfully, the
query by `ADMIN_USER` returns exactly one record, yet that record's roles
do not contain `"sysadmin"`. -/
theorem admin_query_sysadmin_counterexample :
    (checkAndInitialiseDb cfg0 noFail 1 2 3 badState0).outcome = .exited 0 ∧
    ((checkAndInitialiseDb cfg0 noFail 1 2 3 badState0).state.users.countP
      (fun d => d.email == cfg0.ADMIN_USER)) = 1 ∧
    ∀ d ∈ (checkAndInitialiseDb cfg0 noFail 1 2 3 badState0).state.users,
      "sysadmin" ∉ d.roles := by decide

/-- C2 (amended): for every initial state in which no `users` document
carries the admin login, after a successful run the `users` collection
holds exactly one document whose email is `ADMIN_USER`, and every such
document's roles contain `"sysadmin"`. -/
theorem admin_query_after_fresh_run (cfg : Config) (i n r : Nat) (s : DbState)
    (h : ∀ d ∈ s.users, d.email ≠ cfg.ADMIN_USER) :
    ((checkAndInitialiseDb cfg noFail i n r s).state.users.countP
      (fun d => d.email == cfg.ADMIN_USER)) = 1 ∧
    ∀ d ∈ (checkAndInitialiseDb cfg noFail i n r s).state.users,
      d.email = cfg.ADMIN_USER → "sysadmin" ∈ d.roles := by
  have hfind : findAdmin cfg (rolesAfter s) = none := by
    unfold findAdmin
    rw [rolesAfter_users]
    simp only [List.find?_eq_none]
    intro x hx
    simpa using h x hx
  have husers : (checkAndInitialiseDb cfg noFail i n r s).state.users =
      s.users ++ [newAdminDoc cfg i n r] := by
    rw [run_noFail]
    show (initialisedState cfg i n r s).users = _
    unfold initialisedState
    rw [appAdminAfter_users, usersAfter_users_of_none _ _ _ _ _ hfind,
      rolesAfter_users]
  constructor
  · rw [husers, List.countP_append]
    have h0 : s.users.countP (fun d => d.email == cfg.ADMIN_USER) = 0 := by
      rw [List.countP_eq_zero]
      intro a ha
      simpa using h a ha
    simp [h0, newAdminDoc]
  · intro d hd hde
    rw [husers] at hd
    rcases List.mem_append.mp hd with hmem | hmem
    · exact absurd hde (h d hmem)
    · have hdn : d = newAdminDoc cfg i n r := by simpa using hmem
      subst hdn
      simp [newAdminDoc]

/-- Witness for C2 (amended) at concrete inputs. -/
theorem admin_query_after_fresh_run_witness :
    ((checkAndInitialiseDb cfg0 noFail 1 2 3 empty0).state.users.countP
      (fun d => d.email == cfg0.ADMIN_USER)) = 1 ∧
    ∀ d ∈ (checkAndInitialiseDb cfg0 noFail 1 2 3 empty0).state.users,
      d.email = cfg0.ADMIN_USER → "sysadmin" ∈ d.roles :=
  admin_query_after_fresh_run cfg0 1 2 3 empty0 (by simp [empty0])

/-! ### C4: the stored secret is not the plaintext -/

/-- C4: every document a run of `check_and_initialise_db` adds to the
`users` collection stores a `hashed_password` different from the
plaintext credential `ADMIN_PASS`. -/
theorem stored_secret_not_plaintext (cfg : Config) (i n r : Nat) (s : DbState)
    (d : UserDoc) (hd : d ∈ (checkAndInitialiseDb cfg noFail i n r s).state.users)
    (hnew : d ∉ s.users) : d.hashed_password ≠ cfg.ADMIN_PASS := by
  rw [run_noFail] at hd
  have hd' : d ∈ (usersAfter cfg i n r (rolesAfter s)).users := by
    have hx : d ∈ (initialisedState cfg i n r s).users := hd
    rwa [show (initialisedState cfg i n r s).users =
      (usersAfter cfg i n r (rolesAfter s)).users from appAdminAfter_users cfg _] at hx
  by_cases hf : (findAdmin cfg (rolesAfter s)).isSome
  · rw [usersAfter_of_found _ _ _ _ _ hf, rolesAfter_users] at hd'
    exact absurd hd' hnew
  · have hnone : findAdmin cfg (rolesAfter s) = none := by
      cases hx : findAdmin cfg (rolesAfter s)
      · rfl
      · rw [hx] at hf; simp at hf
    rw [usersAfter_users_of_none _ _ _ _ _ hnone, rolesAfter_users] at hd'
    rcases List.mem_append.mp hd' with hmem | hmem
    · exact absurd hmem hnew
    · have hdn : d = newAdminDoc cfg i n r := by simpa using hmem
      subst hdn
      exact hash_password_ne_plain r cfg.ADMIN_PASS

/-- Witness for C4 at concrete inputs: the document the run inserts into
the empty database does not store the plaintext. -/
theorem stored_secret_not_plaintext_witness :
    (newAdminDoc cfg0 1 2 3).hashed_password ≠ cfg0.ADMIN_PASS :=
  stored_secret_not_plaintext cfg0 1 2 3 empty0 (newAdminDoc cfg0 1 2 3)
    (by
      rw [run_noFail]
      show newAdminDoc cfg0 1 2 3 ∈ (initialisedState cfg0 1 2 3 empty0).users
      rw [show (initialisedState cfg0 1 2 3 empty0).users =
        (usersAfter cfg0 1 2 3 (rolesAfter empty0)).users from appAdminAfter_users cfg0 _]
      rw [usersAfter_users_of_none _ _ _ _ _ (by decide), rolesAfter_users]
      simp [empty0])
    (by simp [empty0])

/-! ### C10 / C6: insert-only behaviour of the users phase -/

theorem rolesPhase_ok_users {fail : DbOp → Bool} {s s' : DbState}
    (h : rolesPhase fail s = .ok s') : s'.users = s.users := by
  unfold rolesPhase at h
  repeat' split at h
  all_goals first
    | (simp only [Except.ok.injEq] at h; subst h; rfl)
    | simp at h

theorem usersPhase_ok_of_found {cfg : Config} {fail : DbOp → Bool} {i n r : Nat}
    {s s' : DbState} (hf : (findAdmin cfg s).isSome)
    (h : usersPhase cfg fail i n r s = .ok s') : s' = s := by
  unfold usersPhase at h
  split at h
  · simp at h
  · cases hx : findAdmin cfg s with
    | none => rw [hx] at hf; simp at hf
    | some d =>
      rw [hx] at h
      simp only [Except.ok.injEq] at h
      exact h.symm

theorem appAdminPhase_ok_users {cfg : Config} {fail : DbOp → Bool} {s s' : DbState}
    (h : appAdminPhase cfg fail s = .ok s') : s'.users = s.users := by
  unfold appAdminPhase at h
  repeat' split at h
  all_goals first
    | (simp only [Except.ok.injEq] at h; subst h; rfl)
    | simp at h

theorem run_users_eq_of_found (cfg : Config) (fail : DbOp → Bool) (i n r : Nat)
    (s : DbState) (h : ∃ d ∈ s.users, d.email = cfg.ADMIN_USER) :
    (checkAndInitialiseDb cfg fail i n r s).state.users = s.users := by
  cases hr : rolesPhase fail s with
  | error e => simp only [checkAndInitialiseDb, hr]
  | ok s1 =>
    have h1 : s1.users = s.users := rolesPhase_ok_users hr
    have hf1 : (findAdmin cfg s1).isSome := by
      unfold findAdmin
      rw [h1]
      simp only [List.find?_isSome]
      obtain ⟨d, hd, hde⟩ := h
      exact ⟨d, hd, by simp [hde]⟩
    cases hu : usersPhase cfg fail i n r s1 with
    | error e =>
      simp only [checkAndInitialiseDb, hr, hu]
      exact h1
    | ok s2 =>
      have h2 : s2 = s1 := usersPhase_ok_of_found hf1 hu
      cases ha : appAdminPhase cfg fail s2 with
      | error e =>
        simp only [checkAndInitialiseDb, hr, hu, ha]
        rw [h2]; exact h1
      | ok s3 =>
        have h3 : s3.users = s2.users := appAdminPhase_ok_users ha
        simp only [checkAndInitialiseDb, hr, hu, ha]
        rw [h3, h2]; exact h1

/-- C6: for every run (whatever commands fail) on a state that already
holds a `users` document with `ADMIN_USER` as email, the `users`
collection is left byte-for-byte unchanged: the script only ever inserts,
never updates or deletes user documents. -/
theorem existing_admin_untouched (cfg : Config) (fail : DbOp → Bool) (i n r : Nat)
    (s : DbState) (h : ∃ d ∈ s.users, d.email = cfg.ADMIN_USER) :
    (checkAndInitialiseDb cfg fail i n r s).state.users = s.users :=
  run_users_eq_of_found cfg fail i n r s h

/-- Witness for C6 at concrete inputs. -/
theorem existing_admin_untouched_witness :
    (checkAndInitialiseDb cfg0 noFail 1 2 3 provisioned0).state.users =
      provisioned0.users :=
  existing_admin_untouched cfg0 noFail 1 2 3 provisioned0 (by decide)

/-- C10: when no document carries the admin login, the run inserts exactly
one document whose fields are `is_active = true`, `is_verified = true`,
`roles = ["sysadmin"]` and `tenant_id = none`; and because existence is
checked by the email field alone, any pre-existing document with that
email — whatever its roles — suppresses creation. -/
theorem created_admin_document_fields (cfg : Config) (i n r : Nat) (s : DbState) :
    ((∀ d ∈ s.users, d.email ≠ cfg.ADMIN_USER) →
      (checkAndInitialiseDb cfg noFail i n r s).state.users =
        s.users ++
          [{ id := i
             email := cfg.ADMIN_USER
             hashed_password := hash_password r cfg.ADMIN_PASS
             is_active := true
             is_verified := true
             roles := ["sysadmin"]
             created_at := n
             updated_at := n
             tenant_id := none }]) ∧
    ((∃ d ∈ s.users, d.email = cfg.ADMIN_USER) →
      (checkAndInitialiseDb cfg noFail i n r s).state.users = s.users) := by
  constructor
  · intro h
    have hfind : findAdmin cfg (rolesAfter s) = none := by
      unfold findAdmin
      rw [rolesAfter_users]
      simp only [List.find?_eq_none]
      intro x hx
      simpa using h x hx
    rw [run_noFail]
    show (initialisedState cfg i n r s).users = _
    unfold initialisedState
    rw [appAdminAfter_users, usersAfter_users_of_none _ _ _ _ _ hfind,
      rolesAfter_users]
    rfl
  · intro h
    exact run_users_eq_of_found cfg noFail i n r s h

/-- Witness for C10 at concrete inputs: on the empty database the run
inserts exactly the modelled admin document. -/
theorem created_admin_document_fields_witness :
    (checkAndInitialiseDb cfg0 noFail 1 2 3 empty0).state.users =
      [newAdminDoc cfg0 1 2 3] := by
  have h := (created_admin_document_fields cfg0 1 2 3 empty0).1 (by simp [empty0])
  simpa [empty0] using h

/-! ### C7: exit status -/

/-- C7: the only exit status the script ever produces is 0, reached when
provisioning completes without error; no distinct exit codes exist for
failure modes (those leave via an uncaught exception instead). -/
theorem exit_code_always_zero (cfg : Config) (fail : DbOp → Bool) (i n r : Nat)
    (s : DbState) (c : Nat)
    (h : (checkAndInitialiseDb cfg fail i n r s).outcome = .exited c) : c = 0 := by
  unfold checkAndInitialiseDb at h
  repeat' split at h
  all_goals simp_all

/-- Witness for C7 at concrete inputs. -/
theorem exit_code_always_zero_witness :
    (checkAndInitialiseDb cfg0 noFail 1 2 3 provisioned0).outcome =
        .exited 0 ∧ (0 : Nat) = 0 :=
  ⟨by decide, exit_code_always_zero cfg0 noFail 1 2 3 provisioned0 0 (by decide)⟩

/-! ### C5: command failures propagate -/

/-- C5 is false as stated: at this concrete input the database rejects
the `usersInfo` command, and the resulting `OperationFailure` propagates
out of `check_and_initialise_db` (the function contains no exception
handler), instead of being caught and logged. -/
theorem operation_failure_propagates_counterexample :
    (checkAndInitialiseDb cfg0 failUsersInfo 1 2 3 provisioned0).outcome =
      .raised (.operationFailure "usersInfo") := by decide

/-- C5 (amended): authorization/command failures during provisioning are
not caught by `check_and_initialise_db`.  One conjunct per database
command the function issues — `list_collection_names`,
`create_collection`, `find_one`, `insert_one`, `usersInfo`, `createUser`:
whenever the command is the first one executed that raises
`OperationFailure` (its guards satisfied, the commands before it
succeeding), the exception propagates out of the function with the state
reached so far, and `client.close()` is never reached. -/
theorem operation_failure_propagates (cfg : Config) (fail : DbOp → Bool)
    (i n r : Nat) (s s1 s2 : DbState) :
    (fail .listCollections = true →
      checkAndInitialiseDb cfg fail i n r s =
        { state := s
          outcome := .raised (.operationFailure "list_collection_names")
          clientClosed := false }) ∧
    (fail .listCollections = false → "roles" ∉ s.collections →
      fail .createCollection = true →
      checkAndInitialiseDb cfg fail i n r s =
        { state := s
          outcome := .raised (.operationFailure "create_collection")
          clientClosed := false }) ∧
    (rolesPhase fail s = .ok s1 → fail .findOne = true →
      checkAndInitialiseDb cfg fail i n r s =
        { state := s1
          outcome := .raised (.operationFailure "find_one")
          clientClosed := false }) ∧
    (rolesPhase fail s = .ok s1 → fail .findOne = false →
      findAdmin cfg s1 = none → fail .insertOne = true →
      checkAndInitialiseDb cfg fail i n r s =
        { state := s1
          outcome := .raised (.operationFailure "insert_one")
          clientClosed := false }) ∧
    (rolesPhase fail s = .ok s1 → usersPhase cfg fail i n r s1 = .ok s2 →
      fail .usersInfo = true →
      checkAndInitialiseDb cfg fail i n r s =
        { state := s2
          outcome := .raised (.operationFailure "usersInfo")
          clientClosed := false }) ∧
    (rolesPhase fail s = .ok s1 → usersPhase cfg fail i n r s1 = .ok s2 →
      fail .usersInfo = false →
      (s2.adminDbUsers.any (fun u => u.name == cfg.APP_ADMIN_USER)) = false →
      fail .createUser = true →
      checkAndInitialiseDb cfg fail i n r s =
        { state := s2
          outcome := .raised (.operationFailure "createUser")
          clientClosed := false }) := by
  refine ⟨?_, ?_, ?_, ?_, ?_, ?_⟩
  · intro h1
    have hr : rolesPhase fail s = .error (.operationFailure "list_collection_names") := by
      simp [rolesPhase, h1]
    simp only [checkAndInitialiseDb, hr]
  · intro h1 hmem h2
    have hr : rolesPhase fail s = .error (.operationFailure "create_collection") := by
      simp [rolesPhase, h1, h2, hmem]
    simp only [checkAndInitialiseDb, hr]
  · intro hr h3
    have hu : usersPhase cfg fail i n r s1 = .error (.operationFailure "find_one") := by
      simp [usersPhase, h3]
    simp only [checkAndInitialiseDb, hr, hu]
  · intro hr h3 hfind h4
    have hu : usersPhase cfg fail i n r s1 = .error (.operationFailure "insert_one") := by
      simp [usersPhase, h3, hfind, h4]
    simp only [checkAndInitialiseDb, hr, hu]
  · intro hr hu h5
    have ha : appAdminPhase cfg fail s2 = .error (.operationFailure "usersInfo") := by
      simp [appAdminPhase, h5]
    simp only [checkAndInitialiseDb, hr, hu, ha]
  · intro hr hu h5 hany h6
    have ha : appAdminPhase cfg fail s2 = .error (.operationFailure "createUser") := by
      simp [appAdminPhase, h5, hany, h6]
    simp only [checkAndInitialiseDb, hr, hu, ha]

/-- Witness for C5 (amended) at concrete inputs: one run per failure
site, each ending in the corresponding propagated `OperationFailure`
with the client left open. -/
theorem operation_failure_propagates_witness :
    checkAndInitialiseDb cfg0 failLC 1 2 3 provisioned0 =
      { state := provisioned0
        outcome := .raised (.operationFailure "list_collection_names")
        clientClosed := false } ∧
    checkAndInitialiseDb cfg0 failCC 1 2 3 empty0 =
      { state := empty0
        outcome := .raised (.operationFailure "create_collection")
        clientClosed := false } ∧
    checkAndInitialiseDb cfg0 failFO 1 2 3 provisioned0 =
      { state := provisioned0
        outcome := .raised (.operationFailure "find_one")
        clientClosed := false } ∧
    checkAndInitialiseDb cfg0 failIO 1 2 3 noAdminState0 =
      { state := noAdminState0
        outcome := .raised (.operationFailure "insert_one")
        clientClosed := false } ∧
    checkAndInitialiseDb cfg0 failUsersInfo 1 2 3 provisioned0 =
      { state := provisioned0
        outcome := .raised (.operationFailure "usersInfo")
        clientClosed := false } ∧
    checkAndInitialiseDb cfg0 failCU 1 2 3 noAppAdminState0 =
      { state := noAppAdminState0
        outcome := .raised (.operationFailure "createUser")
        clientClosed := false } :=
  ⟨(operation_failure_propagates cfg0 failLC 1 2 3 provisioned0 provisioned0
      provisioned0).1 (by decide),
   (operation_failure_propagates cfg0 failCC 1 2 3 empty0 empty0
      empty0).2.1 (by decide) (by decide) (by decide),
   (operation_failure_propagates cfg0 failFO 1 2 3 provisioned0 provisioned0
      provisioned0).2.2.1 (by rfl) (by decide),
   (operation_failure_propagates cfg0 failIO 1 2 3 noAdminState0 noAdminState0
      noAdminState0).2.2.2.1 (by rfl) (by decide) (by decide) (by decide),
   (operation_failure_propagates cfg0 failUsersInfo 1 2 3 provisioned0
      provisioned0 provisioned0).2.2.2.2.1 (by rfl) (by rfl) (by decide),
   (operation_failure_propagates cfg0 failCU 1 2 3 noAppAdminState0
      noAppAdminState0 noAppAdminState0).2.2.2.2.2 (by rfl) (by rfl)
      (by decide) (by decide) (by decide)⟩

/-! ### C8: client lifecycle -/

theorem run_clientClosed_of_exited (cfg : Config) (fail : DbOp → Bool)
    (i n r : Nat) (s : DbState) (c : Nat)
    (h : (checkAndInitialiseDb cfg fail i n r s).outcome = .exited c) :
    (checkAndInitialiseDb cfg fail i n r s).clientClosed = true := by
  cases hr : rolesPhase fail s with
  | error e => simp only [checkAndInitialiseDb, hr] at h; simp at h
  | ok s1 =>
    cases hu : usersPhase cfg fail i n r s1 with
    | error e => simp only [checkAndInitialiseDb, hr, hu] at h; simp at h
    | ok s2 =>
      cases ha : appAdminPhase cfg fail s2 with
      | error e => simp only [checkAndInitialiseDb, hr, hu, ha] at h; simp at h
      | ok s3 => simp only [checkAndInitialiseDb, hr, hu, ha]

/-- C8 is false as stated: in this completed run (`server_info` succeeds
at once, provisioning exits with code 0 and closes its own client) the
`MongoClient` opened by `wait_for_db` is still not closed — the script
never calls `close()` on it. -/
theorem wait_client_never_closed_counterexample :
    scriptMain cfg0 noFail probeNow 1 1 2 3 provisioned0 = some scriptRes0 ∧
      scriptRes0.waitClientClosed = false := by decide

/-- C8 (amended): the script opens two `MongoClient`s, not one.  Whenever
the script reaches provisioning, the client opened by `wait_for_db` is
never closed; the client opened by `check_and_initialise_db` is closed
exactly when the run exits normally. -/
theorem client_close_behaviour (cfg : Config) (fail : DbOp → Bool)
    (probe : Nat → Bool) (fuel i n r : Nat) (s : DbState) (res : ScriptResult)
    (h : scriptMain cfg fail probe fuel i n r s = some res) (c : Nat)
    (hc : res.run.outcome = .exited c) :
    res.waitClientClosed = false ∧ res.run.clientClosed = true := by
  unfold scriptMain at h
  cases hw : waitForDb probe fuel with
  | none => rw [hw] at h; simp at h
  | some sleeps =>
    rw [hw] at h
    simp only [Option.some.injEq] at h
    subst h
    exact ⟨rfl, run_clientClosed_of_exited cfg fail i n r s c hc⟩

/-- Witness for C8 (amended) at concrete inputs. -/
theorem client_close_behaviour_witness :
    scriptRes0.waitClientClosed = false ∧ scriptRes0.run.clientClosed = true :=
  client_close_behaviour cfg0 noFail probeNow 1 1 2 3 provisioned0 scriptRes0
    (by decide) 0 (by decide)

/-! ### C3: the availability loop -/

theorem waitForDbAux_none (probe : Nat → Bool) :
    ∀ fuel i, (∀ k, k < fuel → probe (i + k) = false) →
      waitForDbAux probe fuel i = none := by
  intro fuel
  induction fuel with
  | zero => intro i _; rfl
  | succ m ih =>
    intro i h
    have h0 : probe i = false := by simpa using h 0 (by omega)
    have ihx := ih (i + 1) (fun k hk => by
      have hx := h (k + 1) (by omega)
      rwa [show i + (k + 1) = i + 1 + k from by omega] at hx)
    simp [waitForDbAux, h0, ihx]

theorem waitForDbAux_success (probe : Nat → Bool) :
    ∀ n i, (∀ k, k < n → probe (i + k) = false) → probe (i + n) = true →
      waitForDbAux probe (n + 1) i = some (List.replicate n 5) := by
  intro n
  induction n with
  | zero =>
    intro i _ hs
    simp only [Nat.add_zero] at hs
    simp [waitForDbAux, hs]
  | succ m ih =>
    intro i h hs
    have h0 : probe i = false := by simpa using h 0 (by omega)
    have ihx := ih (i + 1)
      (fun k hk => by
        have hx := h (k + 1) (by omega)
        rwa [show i + (k + 1) = i + 1 + k from by omega] at hx)
      (by rwa [show i + 1 + m = i + (m + 1) from by omega])
    rw [show waitForDbAux probe (m + 1 + 1) i =
        if probe i then some []
        else (waitForDbAux probe (m + 1) (i + 1)).map (fun l => 5 :: l) from rfl,
      h0, ihx]
    simp [List.replicate_succ]

/-- C3: while every probe fails, `wait_for_db` neither returns nor raises
— after any number of attempts it is still looping, with no maximum
attempt count — and it sleeps a fixed 5 seconds after each failed probe
(no backoff), returning exactly when a probe first succeeds, having slept
one 5-second interval per preceding failure. -/
theorem wait_for_db_retries_until_success (probe : Nat → Bool) (n : Nat) :
    ((∀ i, probe i = false) → ∀ fuel, waitForDb probe fuel = none) ∧
    ((∀ k, k < n → probe k = false) → probe n = true →
      waitForDb probe (n + 1) = some (List.replicate n 5)) := by
  constructor
  · intro hall fuel
    exact waitForDbAux_none probe fuel 0 (fun k _ => hall (0 + k))
  · intro hfail hsucc
    exact waitForDbAux_success probe n 0
      (fun k hk => by simpa using hfail k hk) (by simpa using hsucc)

/-- Witness for C3 at concrete inputs: an always-failing probe is still
looping after 7 attempts, and a probe first succeeding at attempt 2
returns after exactly two fixed 5-second sleeps. -/
theorem wait_for_db_retries_witness :
    waitForDb (fun _ => false) 7 = none ∧
      waitForDb (fun i => i == 2) 3 = some [5, 5] := by
  constructor
  · exact (wait_for_db_retries_until_success (fun _ => false) 0).1
      (fun i => rfl) 7
  · have h := (wait_for_db_retries_until_success (fun i => i == 2) 2).2
      (by intro k hk; interval_cases k <;> rfl) (by rfl)
    simpa using h
